import Mathlib

/-!
Shallow embedding of `onelogin/saml/Response.py` (python-saml fork).

The embedding models:
- `Response._parse_datetime`  -> `PySaml.parse_datetime`
- `Response._get_name_id`     -> `PySaml._get_name_id`
- `Response.get_assertion_attribute_value` -> `PySaml.get_assertion_attribute_value`
- `Response.is_valid`         -> `PySaml.is_valid` (verifier-call count included)

Python `datetime` values are modelled as field records; for range-valid
fields Python's chronological comparison coincides with the lexicographic
(mixed-radix) comparison used here.  Python exceptions are modelled by
`Except PyErr`.
-/

namespace PySaml

/-- Python-level failures observable from `Response`:
`ValueError` (from `datetime.strptime`), `ResponseConditionError`,
`ResponseNameIDError`, and lxml's `XPathEvalError` for a malformed
XPath expression. -/
inductive PyErr where
  | valueError : PyErr
  | conditionError : String → PyErr
  | nameIDError : String → PyErr
  | xpathEvalError : PyErr
deriving DecidableEq, Repr

/-- A `datetime.datetime` value as a record of its fields. -/
structure DateTime where
  year : Nat
  month : Nat
  day : Nat
  hour : Nat
  minute : Nat
  second : Nat
  microsecond : Nat
deriving DecidableEq, Repr

/-- Gregorian leap-year test, as in Python's `calendar`/`datetime`. -/
def isLeap (y : Nat) : Bool :=
  decide ((y % 4 = 0 ∧ y % 100 ≠ 0) ∨ y % 400 = 0)

/-- Number of days in a month, as validated by the `datetime` constructor. -/
def daysInMonth (y m : Nat) : Nat :=
  if m = 2 then (if isLeap y then 29 else 28)
  else if m = 4 ∨ m = 6 ∨ m = 9 ∨ m = 11 then 30
  else 31

/-- Field ranges enforced by the `datetime` constructor. -/
def DateTime.Valid (d : DateTime) : Prop :=
  1 ≤ d.year ∧ d.year ≤ 9999 ∧ 1 ≤ d.month ∧ d.month ≤ 12 ∧
  1 ≤ d.day ∧ d.day ≤ daysInMonth d.year d.month ∧
  d.hour ≤ 23 ∧ d.minute ≤ 59 ∧ d.second ≤ 59 ∧ d.microsecond ≤ 999999

instance (d : DateTime) : Decidable d.Valid := by
  unfold DateTime.Valid; infer_instance

/-- Mixed-radix key.  For range-valid fields, `key` is strictly monotone in
chronological order, so Python's `datetime` comparisons are `key` comparisons. -/
def DateTime.key (d : DateTime) : Nat :=
  (((((d.year * 13 + d.month) * 32 + d.day) * 24 + d.hour) * 60 + d.minute) * 60
      + d.second) * 1000000 + d.microsecond

/-- Python `a < b` on datetimes (chronological; `key` order on valid fields). -/
def dtLt (a b : DateTime) : Bool := decide (a.key < b.key)

/-- Python `a <= b` on datetimes. -/
def dtLe (a b : DateTime) : Bool := decide (a.key ≤ b.key)

/-- The ASCII digit character for `n % 10`-style single digits. -/
def digitChar : Nat → Char
  | 0 => '0' | 1 => '1' | 2 => '2' | 3 => '3' | 4 => '4'
  | 5 => '5' | 6 => '6' | 7 => '7' | 8 => '8' | _ => '9'

/-- Numeric value of a list of ASCII digit characters (most significant first). -/
def digitsToNat (ds : List Char) : Nat :=
  ds.foldl (fun acc c => acc * 10 + (c.toNat - 48)) 0

/-- Split a character stream into its leading maximal digit run and the rest. -/
def splitDigits (cs : List Char) : List Char × List Char :=
  (cs.takeWhile Char.isDigit, cs.dropWhile Char.isDigit)

/-- One numeric field of a `strptime` format such as `%m`, `%d`, `%H`, `%M`,
`%S`: a maximal run of one or two digits whose value lies in `[lo, hi]`,
followed by one of the accepted literal separator characters `seps`.
(CPython compiles these directives to regexes such as `1[0-2]|0[1-9]|[1-9]`;
against input where the field is followed by a non-digit literal this is
exactly the maximal-run check used here.  The pattern is compiled with
`re.IGNORECASE`, so an alphabetic literal such as `T` or `Z` matches either
case: callers pass both cases in `seps`.) -/
def parseNum2 (cs : List Char) (seps : List Char) (lo hi : Nat) : Option (Nat × List Char) :=
  let ds := (splitDigits cs).1
  let r := (splitDigits cs).2
  if ds.length = 0 ∨ 2 < ds.length then none
  else
    let v := digitsToNat ds
    if lo ≤ v ∧ v ≤ hi then
      match r with
      | c :: r2 => if seps.contains c then some (v, r2) else none
      | [] => none
    else none

/-- The `%Y-` head of the accepted formats: exactly four digits then `-`. -/
def parseYear4 (cs : List Char) : Option (Nat × List Char) :=
  let ds := (splitDigits cs).1
  let r := (splitDigits cs).2
  if ds.length = 4 then
    match r with
    | c :: r2 => if c = '-' then some (digitsToNat ds, r2) else none
    | [] => none
  else none

/-- `datetime.strptime(dt, "%Y-%m-%dT%H:%M:%SZ")`: whole-second ISO 8601 UTC.
CPython compiles the format with `re.IGNORECASE`, so the literal `T` and `Z`
also match `t` and `z`.  The trailing constructor check (`1 <= year`, day
fits the month) models the `datetime` constructor validation performed by
`strptime`.  (The model's alphabet is ASCII: acceptance of non-ASCII digit
characters by `\d` is outside it.) -/
def parseWholeSec (cs : List Char) : Option DateTime := do
  let (y, r1) ← parseYear4 cs
  let (mo, r2) ← parseNum2 r1 ['-'] 1 12
  let (dd, r3) ← parseNum2 r2 ['T', 't'] 1 31
  let (h, r4) ← parseNum2 r3 [':'] 0 23
  let (mi, r5) ← parseNum2 r4 [':'] 0 59
  let (s, r6) ← parseNum2 r5 ['Z', 'z'] 0 59
  if r6 = [] ∧ 1 ≤ y ∧ dd ≤ daysInMonth y mo then
    some ⟨y, mo, dd, h, mi, s, 0⟩
  else none

/-- `datetime.strptime(dt, "%Y-%m-%dT%H:%M:%S.%fZ")`: fractional-second ISO
8601 UTC, with the same `re.IGNORECASE` handling of the literal `T` and `Z`.
`%f` is one to six digits, right-padded to microseconds. -/
def parseFracSec (cs : List Char) : Option DateTime := do
  let (y, r1) ← parseYear4 cs
  let (mo, r2) ← parseNum2 r1 ['-'] 1 12
  let (dd, r3) ← parseNum2 r2 ['T', 't'] 1 31
  let (h, r4) ← parseNum2 r3 [':'] 0 23
  let (mi, r5) ← parseNum2 r4 [':'] 0 59
  let (s, r6) ← parseNum2 r5 ['.'] 0 59
  let fs := (splitDigits r6).1
  let r7 := (splitDigits r6).2
  if 1 ≤ fs.length ∧ fs.length ≤ 6 then
    let us := digitsToNat fs * 10 ^ (6 - fs.length)
    match r7 with
    | c :: r8 =>
        if ['Z', 'z'].contains c then
          if r8 = [] ∧ 1 ≤ y ∧ dd ≤ daysInMonth y mo then
            some ⟨y, mo, dd, h, mi, s, us⟩
          else none
        else none
    | [] => none
  else none

/-- `Response._parse_datetime`: try the whole-second format, fall back to the
fractional format; if both `strptime` calls fail, the `ValueError` of the
second escapes. -/
def parse_datetime (dt : String) : Except PyErr DateTime :=
  match parseWholeSec dt.data with
  | some d => .ok d
  | none =>
      match parseFracSec dt.data with
      | some d => .ok d
      | none => .error .valueError

/-- The calendar day preceding `(y, m, d)` (for a valid date of year ≥ 2). -/
def prevDay (y m d : Nat) : Nat × Nat × Nat :=
  if 1 < d then (y, m, d - 1)
  else if 1 < m then (y, m - 1, daysInMonth y (m - 1))
  else (y - 1, 12, 31)

/-- `d - timedelta(0, k, 0)` for `k ≤ 86400`: subtract `k` seconds, borrowing
at most one calendar day.  The microsecond field is untouched, exactly as
`timedelta(0, k, 0)` has no microsecond part. -/
def subSeconds (d : DateTime) (k : Nat) : DateTime :=
  if k ≤ d.hour * 3600 + d.minute * 60 + d.second then
    { d with hour := (d.hour * 3600 + d.minute * 60 + d.second - k) / 3600,
             minute := (d.hour * 3600 + d.minute * 60 + d.second - k) % 3600 / 60,
             second := (d.hour * 3600 + d.minute * 60 + d.second - k) % 60 }
  else
    { year := (prevDay d.year d.month d.day).1,
      month := (prevDay d.year d.month d.day).2.1,
      day := (prevDay d.year d.month d.day).2.2,
      hour := (86400 + (d.hour * 3600 + d.minute * 60 + d.second) - k) / 3600,
      minute := (86400 + (d.hour * 3600 + d.minute * 60 + d.second) - k) % 3600 / 60,
      second := (86400 + (d.hour * 3600 + d.minute * 60 + d.second) - k) % 60,
      microsecond := d.microsecond }

/-- Truncation to whole seconds: the net effect of formatting with
`%Y-%m-%dT%H:%M:%SZ` (no `%f`) and re-parsing. -/
def floorSec (d : DateTime) : DateTime := { d with microsecond := 0 }

/-- Two-digit zero-padded field, as `strftime` renders `%m`, `%d`, `%H`,
`%M`, `%S`. -/
def pad2 (n : Nat) : List Char := [digitChar (n / 10), digitChar (n % 10)]

/-- Four-digit zero-padded `%Y`. -/
def pad4 (n : Nat) : List Char :=
  [digitChar (n / 1000), digitChar (n / 100 % 10), digitChar (n / 10 % 10), digitChar (n % 10)]

/-- `d.strftime("%Y-%m-%dT%H:%M:%SZ")`. -/
def strftimeZ (d : DateTime) : String :=
  ⟨pad4 d.year ++ '-' :: pad2 d.month ++ '-' :: pad2 d.day ++ 'T' :: pad2 d.hour
      ++ ':' :: pad2 d.minute ++ ':' :: pad2 d.second ++ ['Z']⟩

/-! ## Document model

A parsed `samlp:Response` document, restricted to what the queries of
`Response.py` can observe:
- `nameIDs`: the text of every node matched by
  `/samlp:Response/saml:Assertion/saml:Subject/saml:NameID`;
- `conditions`: one entry per node matched by
  `/samlp:Response/saml:Assertion/saml:Conditions`, with its `NotBefore` and
  `NotOnOrAfter` attributes and the text of its
  `saml:AudienceRestriction/saml:Audience` descendants, in document order;
- `attributes`: one entry per
  `saml:AttributeStatement/saml:Attribute` node, carrying its `Name`
  attribute and its `saml:AttributeValue` texts in document order. -/

/-- One `saml:Conditions` element. -/
structure Condition where
  notBefore : Option String
  notOnOrAfter : Option String
  audiences : List String
deriving DecidableEq, Repr

/-- One `saml:Attribute` element inside the `saml:AttributeStatement`. -/
structure SamlAttribute where
  name : String
  values : List String
deriving DecidableEq, Repr

/-- The parsed document, as observed by the fixed queries of `Response.py`. -/
structure Document where
  nameIDs : List String
  conditions : List Condition
  attributes : List SamlAttribute
deriving DecidableEq, Repr

/-- The node set of the absolute query
`/samlp:Response/saml:Assertion/saml:Conditions/saml:AudienceRestriction/saml:Audience`.
`is_valid` issues this query through `condition.xpath(...)`, but the leading
`/` makes lxml evaluate it from the document root, so it collects the
audience texts of every `Conditions` block in the document. -/
def allAudiences (doc : Document) : List String :=
  List.flatten (doc.conditions.map Condition.audiences)

/-- Python truthiness of the `issuer` argument (`if self._issuer:`). -/
def issuerTruthy : Option String → Bool
  | none => false
  | some s => decide (s ≠ "")

/-- The body of the `for condition in conditions:` loop of `is_valid`, up to
the point where `foundCondition` would be set: returns `.ok true` when the
condition is found in-window, `.ok false` when it is skipped
(missing `NotOnOrAfter`) or out of window, and propagates the `ValueError`
of a failed timestamp parse. -/
def conditionStep (now : DateTime) (c : Condition) : Except PyErr Bool :=
  let nbStr := match c.notBefore with
    | some s => s
    | none => strftimeZ (subSeconds now 5)
  match c.notOnOrAfter with
  | none => .ok false
  | some noaStr =>
      match parse_datetime nbStr with
      | .error e => .error e
      | .ok nb =>
          match parse_datetime noaStr with
          | .error e => .error e
          | .ok noa =>
              if dtLt now nb then .ok false
              else if dtLe noa now then .ok false
              else .ok true

/-- The `for condition in conditions:` loop of `is_valid`, threading the
`foundCondition` / `fountConditionAndAudience` flags. -/
def checkConditions (doc : Document) (issuer : Option String) (now : DateTime) :
    List Condition → Bool → Bool → Except PyErr (Bool × Bool)
  | [], fc, fca => .ok (fc, fca)
  | c :: rest, fc, fca =>
      match conditionStep now c with
      | .error e => .error e
      | .ok false => checkConditions doc issuer now rest fc fca
      | .ok true =>
          let fca2 :=
            if issuerTruthy issuer then
              if (allAudiences doc).contains (issuer.getD "") then true else fca
            else fca
          checkConditions doc issuer now rest true fca2

/-- `Response.is_valid`.  The second component counts how many times the
injected signature verifier was invoked (it appears exactly once in the
source, after both condition checks). -/
def is_valid (doc : Document) (signature : String) (issuer : Option String)
    (now : DateTime) (verifier : Document → String → Bool) :
    Except PyErr Bool × Nat :=
  match checkConditions doc issuer now doc.conditions false false with
  | .error e => (.error e, 0)
  | .ok (foundCondition, fountConditionAndAudience) =>
      if !foundCondition then
        (.error (.conditionError "Timmig issue"), 0)
      else if foundCondition && !fountConditionAndAudience then
        (.error (.conditionError "Not valid Audience"), 0)
      else
        (.ok (verifier doc signature), 1)

/-- Python `str.strip()`: drop leading and trailing whitespace. -/
def pyStrip (s : String) : String :=
  ⟨(s.data.dropWhile Char.isWhitespace).reverse.dropWhile Char.isWhitespace |>.reverse⟩

/-- `Response._get_name_id`: the `NameID` query must match exactly one node;
`result.pop()` takes the last (only) node and its text is stripped. -/
def _get_name_id (doc : Document) : Except PyErr String :=
  let result := doc.nameIDs
  if result.length > 1 then .error (.nameIDError "Found more than one name ID")
  else if result.length = 0 then .error (.nameIDError "Did not find a name ID")
  else .ok (pyStrip (result.getLastD ""))

/-! ## The attribute query

`get_assertion_attribute_value` interpolates the attribute name, unescaped,
into the XPath expression
`/samlp:Response/saml:Assertion/saml:AttributeStatement/saml:Attribute[@Name="<name>"]/saml:AttributeValue`.
The evaluator below models lxml's handling of the relevant XPath fragment:
the fixed location steps, a predicate that is either a single
`@Name="literal"` test or an `or`-disjunction of such tests (an XPath 1.0
double-quoted literal may contain any character except `"`), and a hard
failure (`XPathEvalError`) on anything else. -/

/-- Strip an expected literal character sequence, or fail. -/
def dropLit : List Char → List Char → Option (List Char)
  | [], cs => some cs
  | _ :: _, [] => none
  | l :: ls, c :: cs => if l = c then dropLit ls cs else none

/-- The fixed query text up to the opening `[` of the predicate. -/
def attrHead : String :=
  "/samlp:Response/saml:Assertion/saml:AttributeStatement/saml:Attribute["

/-- The fixed query text after the closing `]` of the predicate. -/
def attrTail : String := "]/saml:AttributeValue"

/-- Parse `@Name="lit"` tests joined by ` or `, returning the literals and
the unconsumed rest.  Fuel-driven; callers pass `cs.length + 1`, which is
always sufficient since each alternative consumes at least one character. -/
def parseAlts : Nat → List Char → Option (List (List Char) × List Char)
  | 0, _ => none
  | fuel + 1, cs => do
      let r1 ← dropLit "@Name=\"".data cs
      let lit := r1.takeWhile (fun c => c ≠ '"')
      match r1.dropWhile (fun c => c ≠ '"') with
      | '"' :: r2 =>
          match dropLit " or ".data r2 with
          | some r3 => do
              let (alts, r4) ← parseAlts fuel r3
              some (lit :: alts, r4)
          | none => some ([lit], r2)
      | _ => none

/-- Evaluate the attribute query string `q` against the document: the whole
expression must be the fixed path with a well-formed name predicate, else
the evaluation fails (lxml raises `XPathEvalError`); on success it returns
the `AttributeValue` texts of every `Attribute` whose `Name` equals one of
the predicate's literals, in document order. -/
def xpathEvalAttr (doc : Document) (q : String) : Option (List String) :=
  (dropLit attrHead.data q.data).bind fun r1 =>
    (parseAlts (r1.length + 1) r1).bind fun p =>
      if p.2 = attrTail.data then
        some (List.flatten (doc.attributes.filterMap
          (fun a => if p.1.contains a.name.data then some a.values else none)))
      else none

/-- `Response.get_assertion_attribute_value`: build the query by string
interpolation (`'...[@Name="%s"]/...' % attribute_name`), evaluate it, and
strip each resulting text. -/
def get_assertion_attribute_value (doc : Document) (attribute_name : String) :
    Except PyErr (List String) :=
  match xpathEvalAttr doc
      ("/samlp:Response/saml:Assertion/saml:AttributeStatement/saml:Attribute[@Name=\""
        ++ attribute_name ++ "\"]/saml:AttributeValue") with
  | none => .error .xpathEvalError
  | some nodes => .ok (nodes.map pyStrip)


/-! ## Sanity evaluations of the embedding on concrete inputs -/

example : parse_datetime "2015-07-01T00:00:10Z" = .ok ⟨2015, 7, 1, 0, 0, 10, 0⟩ := by rfl

example : parse_datetime "2015-07-01T00:00:10.25Z" = .ok ⟨2015, 7, 1, 0, 0, 10, 250000⟩ := by rfl

example : parse_datetime "2015-07-01t00:00:10z" = .ok ⟨2015, 7, 1, 0, 0, 10, 0⟩ := by rfl

example : parse_datetime "2015-07-01" = .error .valueError := by rfl

example : parse_datetime "2015-02-30T00:00:10Z" = .error .valueError := by rfl

example : strftimeZ ⟨2015, 7, 1, 0, 0, 5, 123⟩ = "2015-07-01T00:00:05Z" := by rfl

example : pyStrip "  user@example.com\n " = "user@example.com" := by rfl

example :
    get_assertion_attribute_value ⟨[], [], [⟨"mail", [" a@b "]⟩]⟩ "mail" = .ok ["a@b"] := by
  rfl

example :
    get_assertion_attribute_value ⟨[], [], []⟩ "a\"b" = .error .xpathEvalError := by
  rfl

example :
    get_assertion_attribute_value ⟨[], [], [⟨"y", [" v "]⟩]⟩ "x\" or @Name=\"y"
      = .ok ["v"] := by
  rfl

/-! ## Digit and scanning lemmas -/

deriving instance DecidableEq for Except

lemma isDigit_digitChar {n : Nat} (h : n ≤ 9) : (digitChar n).isDigit = true := by
  interval_cases n <;> decide

lemma toNat_digitChar {n : Nat} (h : n ≤ 9) : (digitChar n).toNat = 48 + n := by
  interval_cases n <;> decide

lemma takeWhile_middle {α : Type} {p : α → Bool} {l : List α} {c : α} {r : List α}
    (hl : ∀ x ∈ l, p x = true) (hc : p c = false) :
    (l ++ c :: r).takeWhile p = l := by
  induction l with
  | nil => simp [List.takeWhile_cons, hc]
  | cons a l ih =>
      have ha := hl a (by simp)
      simp [List.takeWhile_cons, ha, ih (fun x hx => hl x (by simp [hx]))]

lemma dropWhile_middle {α : Type} {p : α → Bool} {l : List α} {c : α} {r : List α}
    (hl : ∀ x ∈ l, p x = true) (hc : p c = false) :
    (l ++ c :: r).dropWhile p = c :: r := by
  induction l with
  | nil => simp [List.dropWhile_cons, hc]
  | cons a l ih =>
      have ha := hl a (by simp)
      simp [List.dropWhile_cons, ha, ih (fun x hx => hl x (by simp [hx]))]

lemma pad2_isDigit {v : Nat} (h : v ≤ 99) : ∀ x ∈ pad2 v, x.isDigit = true := by
  intro x hx
  simp only [pad2, List.mem_cons, List.not_mem_nil, or_false] at hx
  rcases hx with hx | hx <;> subst hx <;> exact isDigit_digitChar (by omega)

lemma pad4_isDigit {v : Nat} (h : v ≤ 9999) : ∀ x ∈ pad4 v, x.isDigit = true := by
  intro x hx
  simp only [pad4, List.mem_cons, List.not_mem_nil, or_false] at hx
  rcases hx with hx | hx | hx | hx <;> subst hx <;> exact isDigit_digitChar (by omega)

lemma digitsToNat_pad2 {v : Nat} (h : v ≤ 99) : digitsToNat (pad2 v) = v := by
  simp only [digitsToNat, pad2, List.foldl,
    toNat_digitChar (show v / 10 ≤ 9 by omega), toNat_digitChar (show v % 10 ≤ 9 by omega)]
  omega

lemma digitsToNat_pad4 {v : Nat} (h : v ≤ 9999) : digitsToNat (pad4 v) = v := by
  simp only [digitsToNat, pad4, List.foldl,
    toNat_digitChar (show v / 1000 ≤ 9 by omega),
    toNat_digitChar (show v / 100 % 10 ≤ 9 by omega),
    toNat_digitChar (show v / 10 % 10 ≤ 9 by omega),
    toNat_digitChar (show v % 10 ≤ 9 by omega)]
  omega

lemma parseNum2_pad2 (v : Nat) (sep : Char) (seps : List Char) (lo hi : Nat)
    {rest : List Char} (hv : v ≤ 99) (hlo : lo ≤ v) (hhi : v ≤ hi)
    (hsep : sep.isDigit = false) (hmem : seps.contains sep = true) :
    parseNum2 (pad2 v ++ sep :: rest) seps lo hi = some (v, rest) := by
  unfold parseNum2 splitDigits
  rw [takeWhile_middle (pad2_isDigit hv) hsep, dropWhile_middle (pad2_isDigit hv) hsep]
  have hlen : (pad2 v).length = 2 := rfl
  simp [hlen, digitsToNat_pad2 hv, hlo, hhi, List.elem_iff.mp hmem]

lemma parseYear4_pad4 {y : Nat} {rest : List Char} (hy : y ≤ 9999) :
    parseYear4 (pad4 y ++ '-' :: rest) = some (y, rest) := by
  unfold parseYear4 splitDigits
  rw [takeWhile_middle (pad4_isDigit hy) (by decide),
    dropWhile_middle (pad4_isDigit hy) (by decide)]
  have hlen : (pad4 y).length = 4 := rfl
  simp [hlen, digitsToNat_pad4 hy]

lemma daysInMonth_le31 (y m : Nat) : daysInMonth y m ≤ 31 := by
  unfold daysInMonth
  split_ifs <;> omega

lemma one_le_daysInMonth (y m : Nat) : 1 ≤ daysInMonth y m := by
  unfold daysInMonth
  split_ifs <;> omega

/-- Formatting with `%Y-%m-%dT%H:%M:%SZ` and re-parsing with the same format
recovers the datetime with the microseconds dropped. -/
lemma parseWholeSec_strftimeZ {d : DateTime} (h : d.Valid) :
    parseWholeSec (strftimeZ d).data = some (floorSec d) := by
  obtain ⟨h1, h2, h3, h4, h5, h6, h7, h8, h9, h10⟩ := h
  have hd31 : d.day ≤ 31 := le_trans h6 (daysInMonth_le31 _ _)
  show parseWholeSec (pad4 d.year ++ '-' :: (pad2 d.month ++ '-' :: (pad2 d.day
      ++ 'T' :: (pad2 d.hour ++ ':' :: (pad2 d.minute ++ ':' :: (pad2 d.second ++ ['Z']))))))
      = some (floorSec d)
  simp only [parseWholeSec]
  rw [parseYear4_pad4 h2]
  simp only [Option.bind_eq_bind, Option.some_bind]
  rw [parseNum2_pad2 d.month '-' ['-'] 1 12 (by omega) h3 h4 (by decide) (by decide)]
  simp only [Option.bind_eq_bind, Option.some_bind]
  rw [parseNum2_pad2 d.day 'T' ['T', 't'] 1 31 (by omega) h5 hd31 (by decide) (by decide)]
  simp only [Option.bind_eq_bind, Option.some_bind]
  rw [parseNum2_pad2 d.hour ':' [':'] 0 23 (by omega) (Nat.zero_le _) h7 (by decide) (by decide)]
  simp only [Option.bind_eq_bind, Option.some_bind]
  rw [parseNum2_pad2 d.minute ':' [':'] 0 59 (by omega) (Nat.zero_le _) h8 (by decide) (by decide)]
  simp only [Option.bind_eq_bind, Option.some_bind]
  rw [parseNum2_pad2 d.second 'Z' ['Z', 'z'] 0 59 (by omega) (Nat.zero_le _) h9 (by decide) (by decide)]
  simp only [Option.bind_eq_bind, Option.some_bind]
  simp [h1, h6, floorSec]

/-- `Response._parse_datetime` of the default `NotBefore` string succeeds. -/
lemma parse_datetime_strftimeZ {d : DateTime} (h : d.Valid) :
    parse_datetime (strftimeZ d) = .ok (floorSec d) := by
  unfold parse_datetime
  rw [parseWholeSec_strftimeZ h]

/-! ## Arithmetic lemmas about `subSeconds`, `floorSec` and `key` -/

lemma key_floorSec_le (d : DateTime) : (floorSec d).key ≤ d.key := by
  simp [floorSec, DateTime.key]

lemma prevDay_spec {y m dd : Nat} (h1 : 1 ≤ y) (h2 : y ≤ 9999) (h3 : 1 ≤ m)
    (h4 : m ≤ 12) (h5 : 1 ≤ dd) (h6 : dd ≤ daysInMonth y m) (hy : 2 ≤ y) :
    (1 ≤ (prevDay y m dd).1 ∧ (prevDay y m dd).1 ≤ 9999 ∧
      1 ≤ (prevDay y m dd).2.1 ∧ (prevDay y m dd).2.1 ≤ 12 ∧
      1 ≤ (prevDay y m dd).2.2 ∧
      (prevDay y m dd).2.2 ≤ daysInMonth (prevDay y m dd).1 (prevDay y m dd).2.1) ∧
    ((prevDay y m dd).1 * 13 + (prevDay y m dd).2.1) * 32 + (prevDay y m dd).2.2
      < (y * 13 + m) * 32 + dd := by
  unfold prevDay
  split_ifs with hd hm
  · dsimp only
    exact ⟨⟨h1, h2, h3, h4, by omega, by omega⟩, by omega⟩
  · dsimp only
    have hle := daysInMonth_le31 y (m - 1)
    exact ⟨⟨h1, h2, by omega, by omega, one_le_daysInMonth _ _, le_refl _⟩, by omega⟩
  · dsimp only
    have hdim : daysInMonth (y - 1) 12 = 31 := by norm_num [daysInMonth]
    exact ⟨⟨by omega, by omega, by omega, by omega, by omega, by rw [hdim]⟩, by omega⟩

/-- Subtracting five seconds from a valid datetime (of year at least 2, as any
clock reading is) yields a valid datetime that is no later. -/
lemma subSeconds5_spec {d : DateTime} (h : d.Valid) (hy : 2 ≤ d.year) :
    (subSeconds d 5).Valid ∧ (subSeconds d 5).key ≤ d.key := by
  obtain ⟨h1, h2, h3, h4, h5, h6, h7, h8, h9, h10⟩ := h
  unfold subSeconds
  split_ifs with hk
  · constructor
    · unfold DateTime.Valid
      dsimp only
      omega
    · unfold DateTime.key
      dsimp only
      omega
  · obtain ⟨⟨p1, p2, p3, p4, p5, p6⟩, plt⟩ :=
      prevDay_spec h1 h2 h3 h4 h5 h6 hy
    constructor
    · unfold DateTime.Valid
      dsimp only
      refine ⟨p1, p2, p3, p4, p5, p6, by omega, by omega, by omega, h10⟩
    · unfold DateTime.key
      dsimp only
      omega

/-! ## Structure of the condition loop -/

lemma conditionStep_noa_none {now : DateTime} {c : Condition}
    (h : c.notOnOrAfter = none) : conditionStep now c = .ok false := by
  simp [conditionStep, h]

/-- Loop invariant of `checkConditions`: if no timestamp parse fails, the loop
returns, `foundCondition` records whether any condition of the list was found
in-window, and `fountConditionAndAudience` records whether some condition was
in-window while the (truthy) issuer sits in the document-wide audience list. -/
lemma checkConditions_spec (doc : Document) (issuer : Option String) (now : DateTime)
    (L : List Condition) (fc fca : Bool)
    (h : ∀ c ∈ L, ∃ b, conditionStep now c = .ok b) :
    checkConditions doc issuer now L fc fca
      = .ok (fc || L.any (fun c => decide (conditionStep now c = .ok true)),
          fca || (L.any (fun c => decide (conditionStep now c = .ok true))
            && (issuerTruthy issuer && (allAudiences doc).contains (issuer.getD "")))) := by
  induction L generalizing fc fca with
  | nil => simp [checkConditions]
  | cons c L ih =>
      obtain ⟨b, hb⟩ := h c (by simp)
      have hTail : ∀ c' ∈ L, ∃ b', conditionStep now c' = .ok b' :=
        fun c' hc' => h c' (by simp [hc'])
      cases b with
      | false =>
          simp only [checkConditions, hb, ih _ _ hTail, List.any_cons]
          simp [hb]
      | true =>
          simp only [checkConditions, hb, ih _ _ hTail, List.any_cons]
          simp only [hb, decide_eq_true_eq, Except.ok.injEq, Prod.mk.injEq]
          constructor
          · simp
          · cases hI : issuerTruthy issuer <;>
              cases hM : (allAudiences doc).contains (issuer.getD "") <;>
              cases fca <;>
              cases hA : L.any (fun c => decide (conditionStep now c = .ok true)) <;>
              simp [hI, hM, hA]

/-! ## Claim theorems -/

/-- C6: for a condition whose `NotOnOrAfter` is present and parses, the
condition counts as in-window iff `lower <= now < upper`, where `lower` is
the parsed `NotBefore` when present and defaults to `now - 5` seconds when it
is absent; in particular the defaulted lower-bound test always passes,
including at the exact grace boundary. -/
theorem c6_in_window_iff (c : Condition) (now lower upper : DateTime) (us : String)
    (hval : now.Valid) (hy : 2 ≤ now.year)
    (hnoa : c.notOnOrAfter = some us)
    (hup : parse_datetime us = .ok upper)
    (hlow : (∃ ns, c.notBefore = some ns ∧ parse_datetime ns = .ok lower)
        ∨ (c.notBefore = none ∧ lower = subSeconds now 5)) :
    conditionStep now c = .ok (dtLe lower now && dtLt now upper) := by
  rcases hlow with ⟨ns, hns, hpl⟩ | ⟨hnone, hl⟩
  · simp only [conditionStep, hns, hnoa, hpl, hup]
    simp only [dtLt, dtLe, decide_eq_true_eq]
    split_ifs with hA hB
    · rw [decide_eq_false (by omega : ¬ lower.key ≤ now.key)]
      simp
    · rw [decide_eq_false (by omega : ¬ now.key < upper.key)]
      simp
    · rw [decide_eq_true (by omega : lower.key ≤ now.key),
        decide_eq_true (by omega : now.key < upper.key)]
      rfl
  · obtain ⟨hv5, hk5⟩ := subSeconds5_spec hval hy
    have hparse := parse_datetime_strftimeZ hv5
    have hfk := key_floorSec_le (subSeconds now 5)
    subst hl
    simp only [conditionStep, hnone, hnoa, hparse, hup]
    simp only [dtLt, dtLe, decide_eq_true_eq]
    rw [if_neg (by omega : ¬ now.key < (floorSec (subSeconds now 5)).key)]
    rw [decide_eq_true (by omega : (subSeconds now 5).key ≤ now.key)]
    split_ifs with hB
    · rw [decide_eq_false (by omega : ¬ now.key < upper.key)]
      simp
    · rw [decide_eq_true (by omega : now.key < upper.key)]
      rfl

theorem c6_in_window_iff_witness :
    conditionStep ⟨2015, 7, 1, 0, 5, 0, 0⟩
        ⟨some "2015-07-01T00:00:00Z", some "2015-07-01T00:10:00Z", []⟩
      = .ok (dtLe ⟨2015, 7, 1, 0, 0, 0, 0⟩ ⟨2015, 7, 1, 0, 5, 0, 0⟩
          && dtLt ⟨2015, 7, 1, 0, 5, 0, 0⟩ ⟨2015, 7, 1, 0, 10, 0, 0⟩) :=
  c6_in_window_iff ⟨some "2015-07-01T00:00:00Z", some "2015-07-01T00:10:00Z", []⟩
    ⟨2015, 7, 1, 0, 5, 0, 0⟩ ⟨2015, 7, 1, 0, 0, 0, 0⟩ ⟨2015, 7, 1, 0, 10, 0, 0⟩
    "2015-07-01T00:10:00Z" (by decide) (by decide) rfl rfl
    (Or.inl ⟨"2015-07-01T00:00:00Z", rfl, rfl⟩)

/-- C7: a condition without `NotOnOrAfter` is skipped entirely: it leaves the
loop state (`foundCondition`, `fountConditionAndAudience`) untouched and can
raise no error, whatever its `NotBefore` holds. -/
theorem c7_skip_condition_without_upper (doc : Document) (issuer : Option String)
    (now : DateTime) (c : Condition) (rest : List Condition) (fc fca : Bool)
    (h : c.notOnOrAfter = none) :
    checkConditions doc issuer now (c :: rest) fc fca
      = checkConditions doc issuer now rest fc fca := by
  simp only [checkConditions, conditionStep_noa_none h]

theorem c7_skip_condition_without_upper_witness :
    checkConditions ⟨[], [⟨some "not a timestamp", none, []⟩], []⟩ none
        ⟨2015, 7, 1, 0, 0, 5, 0⟩ [⟨some "not a timestamp", none, []⟩] false false
      = checkConditions ⟨[], [⟨some "not a timestamp", none, []⟩], []⟩ none
        ⟨2015, 7, 1, 0, 0, 5, 0⟩ [] false false :=
  c7_skip_condition_without_upper ⟨[], [⟨some "not a timestamp", none, []⟩], []⟩ none
    ⟨2015, 7, 1, 0, 0, 5, 0⟩ ⟨some "not a timestamp", none, []⟩ [] false false rfl

/-- C3: every failing path of `is_valid` raises before the signature verifier
is consulted (verifier invocation count 0), and every non-raising path
invokes the verifier exactly once and returns its boolean verdict — so a
signature failure is an ordinary `.ok false`, never an exception. -/
theorem c3_condition_error_preempts_verifier (doc : Document) (signature : String)
    (issuer : Option String) (now : DateTime) (verifier : Document → String → Bool) :
    (∃ e, is_valid doc signature issuer now verifier = (.error e, 0)) ∨
      is_valid doc signature issuer now verifier = (.ok (verifier doc signature), 1) := by
  unfold is_valid
  rcases hcc : checkConditions doc issuer now doc.conditions false false with e | p
  · exact Or.inl ⟨e, rfl⟩
  · obtain ⟨fc, fca⟩ := p
    cases fc
    · exact Or.inl ⟨.conditionError "Timmig issue", rfl⟩
    · cases fca
      · exact Or.inl ⟨.conditionError "Not valid Audience", rfl⟩
      · exact Or.inr rfl

/-- C8: reading the name identifier returns the matched node's trimmed text
when exactly one node matches the `NameID` query, and raises
`ResponseNameIDError` with a message naming the case when zero or more than
one node matches. -/
theorem c8_name_id_cases (doc : Document) :
    (∀ t, doc.nameIDs = [t] → _get_name_id doc = .ok (pyStrip t)) ∧
    (doc.nameIDs = [] →
      _get_name_id doc = .error (.nameIDError "Did not find a name ID")) ∧
    (1 < doc.nameIDs.length →
      _get_name_id doc = .error (.nameIDError "Found more than one name ID")) := by
  refine ⟨?_, ?_, ?_⟩
  · intro t ht
    simp [_get_name_id, ht, List.getLastD]
  · intro h0
    simp [_get_name_id, h0]
  · intro h2
    simp only [_get_name_id]
    rw [if_pos h2]

theorem c8_name_id_cases_witness :
    _get_name_id ⟨[" user@example.com "], [], []⟩ = .ok "user@example.com" ∧
    _get_name_id ⟨[], [], []⟩ = .error (.nameIDError "Did not find a name ID") ∧
    _get_name_id ⟨["a", "b"], [], []⟩
      = .error (.nameIDError "Found more than one name ID") :=
  ⟨by rw [(c8_name_id_cases ⟨[" user@example.com "], [], []⟩).1 " user@example.com " rfl]; rfl,
   (c8_name_id_cases ⟨[], [], []⟩).2.1 rfl,
   (c8_name_id_cases ⟨["a", "b"], [], []⟩).2.2 (by decide)⟩

/-! ## Lemmas about the attribute query evaluator -/

lemma dropLit_append (l rest : List Char) : dropLit l (l ++ rest) = some rest := by
  induction l with
  | nil => rfl
  | cons a l ih => simp [dropLit, ih]

lemma parseAlts_single (name : List Char) (hq : ∀ x ∈ name, x ≠ '"') (fuel : Nat) :
    parseAlts (fuel + 1) ("@Name=\"".data ++ (name ++ '"' :: attrTail.data))
      = some ([name], attrTail.data) := by
  have hl : ∀ x ∈ name, (fun c => decide (c ≠ '"')) x = true :=
    fun x hx => decide_eq_true (hq x hx)
  have hc : (fun c => decide (c ≠ '"')) '"' = false := by decide
  simp only [parseAlts, dropLit_append, Option.bind_eq_bind, Option.some_bind,
    takeWhile_middle hl hc, dropWhile_middle hl hc]
  rfl

/-- For an attribute name free of double quotes, the interpolated query is a
single well-formed `@Name` test and selects exactly the attributes whose
`Name` equals the name. -/
lemma xpathEvalAttr_plain (doc : Document) (name : String)
    (hq : ∀ x ∈ name.data, x ≠ '"') :
    xpathEvalAttr doc
        ("/samlp:Response/saml:Assertion/saml:AttributeStatement/saml:Attribute[@Name=\""
          ++ name ++ "\"]/saml:AttributeValue")
      = some (List.flatten (doc.attributes.filterMap
          (fun a => if a.name = name then some a.values else none))) := by
  have e1 : ("/samlp:Response/saml:Assertion/saml:AttributeStatement/saml:Attribute[@Name=\"" :
      String).data = attrHead.data ++ "@Name=\"".data := rfl
  have e2 : ("\"]/saml:AttributeValue" : String).data = '"' :: attrTail.data := rfl
  have hdata :
      ("/samlp:Response/saml:Assertion/saml:AttributeStatement/saml:Attribute[@Name=\""
          ++ name ++ "\"]/saml:AttributeValue").data
        = attrHead.data ++ ("@Name=\"".data ++ (name.data ++ '"' :: attrTail.data)) := by
    rw [String.data_append, String.data_append, e1, e2]
    exact List.append_assoc _ _ _
  unfold xpathEvalAttr
  rw [hdata, dropLit_append]
  simp only [Option.some_bind]
  rw [parseAlts_single name.data hq _]
  simp only [Option.some_bind]
  rw [if_pos trivial]
  have hfun : (fun a : SamlAttribute =>
        if [name.data].contains a.name.data = true then some a.values else none)
      = (fun a : SamlAttribute => if a.name = name then some a.values else none) := by
    funext a
    by_cases h : a.name = name
    · rw [if_pos h, if_pos]
      rw [h]
      simp [List.contains]
    · rw [if_neg h, if_neg]
      simp only [List.contains, List.elem_eq_mem, List.mem_singleton, decide_eq_true_eq]
      intro hd
      exact h (String.ext hd)
  rw [hfun]

/-! ## Remaining claim theorems -/

/-- C9 counterexample: the attribute name `a"b` is absent from the (empty)
document, yet `get_assertion_attribute_value` raises an `XPathEvalError`
instead of returning an empty sequence, because the quote breaks the
interpolated query. -/
theorem c9_quoted_name_raises_counterexample :
    get_assertion_attribute_value ⟨[], [], []⟩ "a\"b" = .error .xpathEvalError := rfl

/-- C9 (amended): for every attribute name free of double-quote characters
that names no `Attribute` of the document, `get_assertion_attribute_value`
returns an empty sequence and raises no error. -/
theorem c9_absent_attribute_empty (doc : Document) (name : String)
    (hq : ∀ x ∈ name.data, x ≠ '"')
    (habs : ∀ a ∈ doc.attributes, a.name ≠ name) :
    get_assertion_attribute_value doc name = .ok [] := by
  have hnil : doc.attributes.filterMap
      (fun a => if a.name = name then some a.values else none) = [] :=
    List.filterMap_eq_nil_iff.mpr (fun a ha => if_neg (habs a ha))
  unfold get_assertion_attribute_value
  rw [xpathEvalAttr_plain doc name hq, hnil]
  rfl

theorem c9_absent_attribute_empty_witness :
    get_assertion_attribute_value ⟨[], [], [⟨"mail", ["v"]⟩]⟩ "phone" = .ok [] :=
  c9_absent_attribute_empty ⟨[], [], [⟨"mail", ["v"]⟩]⟩ "phone" (by decide) (by decide)

/-- C10: the attribute name is interpolated unescaped into the query, so a
name containing a double quote reaches the malformed-expression branch
(`XPathEvalError`) from the public interface, and a crafted name
(`x" or @Name="y`) changes the meaning of the query: it selects the values
of the attribute named `y` although no attribute bears the crafted name. -/
theorem c10_xpath_injection :
    ("a\"b".data.contains '"' = true ∧
      get_assertion_attribute_value ⟨[], [], []⟩ "a\"b" = .error .xpathEvalError) ∧
    (("x\" or @Name=\"y").data.contains '"' = true ∧
      (⟨[], [], [⟨"y", [" v "]⟩]⟩ : Document).attributes.all
        (fun a => a.name != "x\" or @Name=\"y") = true ∧
      get_assertion_attribute_value ⟨[], [], [⟨"y", [" v "]⟩]⟩ "x\" or @Name=\"y"
        = .ok ["v"]) :=
  ⟨⟨by decide, rfl⟩, by decide, by decide, rfl⟩

/-- C1 (code bug): a document with a single in-window condition, validated
with no expected issuer supplied, raises
`ResponseConditionError('Not valid Audience')` with the verifier never
invoked — the final guard `if foundCondition and not
fountConditionAndAudience` omits the `self._issuer` test, so the caller
cannot opt out of audience checking as the spec describes. -/
theorem c1_no_issuer_raises_eval :
    conditionStep ⟨2015, 7, 1, 0, 0, 5, 0⟩ ⟨none, some "2015-07-01T00:00:10Z", []⟩
        = .ok true ∧
    is_valid ⟨[], [⟨none, some "2015-07-01T00:00:10Z", []⟩], []⟩ "fingerprint" none
        ⟨2015, 7, 1, 0, 0, 5, 0⟩ (fun _ _ => true)
      = (.error (.conditionError "Not valid Audience"), 0) :=
  ⟨rfl, rfl⟩

/-- C5 (code bug): the `Timmig issue` error does fire when no condition is
in-window, but with no issuer supplied a single in-window condition (among
out-of-window ones) does not suffice for success: the audience guard raises
even though no audience check was requested. -/
theorem c5_any_satisfies_eval :
    conditionStep ⟨2015, 7, 1, 0, 0, 5, 0⟩
        ⟨some "2015-07-01T00:00:00Z", some "2015-07-01T00:00:10Z", []⟩ = .ok true ∧
    conditionStep ⟨2015, 7, 1, 0, 0, 5, 0⟩
        ⟨some "2015-01-01T00:00:00Z", some "2015-01-02T00:00:00Z", []⟩ = .ok false ∧
    is_valid ⟨[], [⟨some "2015-07-01T00:00:00Z", some "2015-07-01T00:00:10Z", []⟩,
          ⟨some "2015-01-01T00:00:00Z", some "2015-01-02T00:00:00Z", []⟩], []⟩
        "fingerprint" none ⟨2015, 7, 1, 0, 0, 5, 0⟩ (fun _ _ => true)
      = (.error (.conditionError "Not valid Audience"), 0) ∧
    is_valid ⟨[], [⟨some "2015-01-01T00:00:00Z", some "2015-01-02T00:00:00Z", []⟩], []⟩
        "fingerprint" none ⟨2015, 7, 1, 0, 0, 5, 0⟩ (fun _ _ => true)
      = (.error (.conditionError "Timmig issue"), 0) :=
  ⟨rfl, rfl, rfl, rfl⟩

/-- C2 counterexample: issuer `sp`; the only in-window condition carries
audience `other` while an out-of-window condition carries `sp`; the check
succeeds because the audience query is evaluated from the document root, even
though the matched condition's own audience list does not contain the
issuer. -/
theorem c2_audience_not_scoped_counterexample :
    conditionStep ⟨2015, 7, 1, 0, 0, 5, 0⟩
        ⟨some "2015-07-01T00:00:00Z", some "2015-07-01T00:00:10Z", ["other"]⟩ = .ok true ∧
    conditionStep ⟨2015, 7, 1, 0, 0, 5, 0⟩
        ⟨some "2015-01-01T00:00:00Z", some "2015-01-02T00:00:00Z", ["sp"]⟩ = .ok false ∧
    (["other"] : List String).contains "sp" = false ∧
    is_valid ⟨[], [⟨some "2015-07-01T00:00:00Z", some "2015-07-01T00:00:10Z", ["other"]⟩,
          ⟨some "2015-01-01T00:00:00Z", some "2015-01-02T00:00:00Z", ["sp"]⟩], []⟩
        "fingerprint" (some "sp") ⟨2015, 7, 1, 0, 0, 5, 0⟩ (fun _ _ => true)
      = (.ok true, 1) :=
  ⟨rfl, rfl, rfl, rfl⟩

/-- C2 (amended): with a truthy issuer and all timestamps parseable, the
validity check succeeds (returning the verifier verdict) iff some condition
is in-window AND the issuer appears among the audience values gathered from
ALL `Conditions` blocks of the document — the audience query is rooted at
the document, not scoped to the matched condition. -/
theorem c2_audience_checked_globally (doc : Document) (signature : String)
    (s : String) (now : DateTime) (verifier : Document → String → Bool)
    (hs : s ≠ "")
    (hok : ∀ c ∈ doc.conditions, ∃ b, conditionStep now c = .ok b) :
    is_valid doc signature (some s) now verifier = (.ok (verifier doc signature), 1)
      ↔ (∃ c ∈ doc.conditions, conditionStep now c = .ok true)
          ∧ s ∈ allAudiences doc := by
  unfold is_valid
  rw [checkConditions_spec doc (some s) now doc.conditions false false hok]
  have hI : issuerTruthy (some s) = true := by simp [issuerTruthy, hs]
  simp only [hI, Bool.false_or, Bool.true_and, Option.getD_some]
  cases hA : doc.conditions.any (fun c => decide (conditionStep now c = .ok true)) with
  | false =>
      apply iff_of_false
      · simp
      · rintro ⟨⟨c, hc, hstep⟩, _⟩
        have : doc.conditions.any (fun c => decide (conditionStep now c = .ok true))
            = true := List.any_eq_true.mpr ⟨c, hc, by simp [hstep]⟩
        rw [hA] at this
        exact Bool.false_ne_true this
  | true =>
      cases hM : (allAudiences doc).contains s with
      | false =>
          apply iff_of_false
          · simp
          · rintro ⟨_, hmem⟩
            have : (allAudiences doc).contains s = true := List.elem_iff.mpr hmem
            rw [hM] at this
            exact Bool.false_ne_true this
      | true =>
          apply iff_of_true rfl
          refine ⟨?_, List.elem_iff.mp hM⟩
          obtain ⟨c, hc, hstep⟩ := List.any_eq_true.mp hA
          exact ⟨c, hc, by simpa using hstep⟩

theorem c2_audience_checked_globally_witness :
    is_valid ⟨[], [⟨some "2015-07-01T00:00:00Z", some "2015-07-01T00:00:10Z", ["sp"]⟩], []⟩
        "fingerprint" (some "sp") ⟨2015, 7, 1, 0, 0, 5, 0⟩ (fun _ _ => true)
      = (.ok true, 1) :=
  (c2_audience_checked_globally
      ⟨[], [⟨some "2015-07-01T00:00:00Z", some "2015-07-01T00:00:10Z", ["sp"]⟩], []⟩
      "fingerprint" "sp" ⟨2015, 7, 1, 0, 0, 5, 0⟩ (fun _ _ => true)
      (by decide)
      (by intro c hc; rw [List.mem_singleton] at hc; subst hc; exact ⟨true, rfl⟩)).mpr
    ⟨⟨⟨some "2015-07-01T00:00:00Z", some "2015-07-01T00:00:10Z", ["sp"]⟩,
      List.mem_singleton.mpr rfl, rfl⟩, by decide⟩

/-- C4 counterexample: a condition whose `NotOnOrAfter` is the date-only
string `2015-07-01` makes the validity check fail with the bare `ValueError`
from `strptime` — not a `ResponseConditionError`. -/
theorem c4_parse_error_not_condition_error_counterexample :
    is_valid ⟨[], [⟨some "2015-01-01T00:00:00Z", some "2015-07-01", []⟩], []⟩
        "fingerprint" none ⟨2015, 7, 1, 0, 0, 5, 0⟩ (fun _ _ => true)
      = (.error .valueError, 0) := rfl

/-- C4 (amended): `_parse_datetime` attempts the whole-second format first
and falls back to the fractional format; a string matching neither format
makes the validity check fail by propagating the `ValueError` of the failed
parse itself, not a `ResponseConditionError`.  Stated over ASCII strings,
the alphabet on which the embedded parsers coincide with CPython's
`re.IGNORECASE`-compiled `strptime` (case-variant `T`/`Z` separators are
accepted; acceptance of non-ASCII digit characters lies outside the model's
alphabet). -/
theorem c4_unparseable_timestamp_value_error (s : String)
    (_hascii : ∀ c ∈ s.data, c.toNat < 128)
    (hw : parseWholeSec s.data = none) (hf : parseFracSec s.data = none)
    (doc : Document) (signature : String) (issuer : Option String) (now : DateTime)
    (verifier : Document → String → Bool) (rest : List Condition) (auds : List String)
    (hdoc : doc.conditions = ⟨some "2015-01-01T00:00:00Z", some s, auds⟩ :: rest) :
    parse_datetime s = .error .valueError ∧
    is_valid doc signature issuer now verifier = (.error .valueError, 0) := by
  have hps : parse_datetime s = .error .valueError := by
    unfold parse_datetime
    rw [hw, hf]
  refine ⟨hps, ?_⟩
  have h1 : parse_datetime "2015-01-01T00:00:00Z" = .ok ⟨2015, 1, 1, 0, 0, 0, 0⟩ := rfl
  have hstep : conditionStep now ⟨some "2015-01-01T00:00:00Z", some s, auds⟩
      = .error .valueError := by
    simp [conditionStep, h1, hps]
  unfold is_valid
  rw [hdoc]
  simp only [checkConditions, hstep]

theorem c4_unparseable_timestamp_value_error_witness :
    parse_datetime "2015-07-01" = .error .valueError ∧
    is_valid ⟨[], [⟨some "2015-01-01T00:00:00Z", some "2015-07-01", []⟩], []⟩
        "fp" none ⟨2015, 7, 1, 0, 0, 5, 0⟩ (fun _ _ => true)
      = (.error .valueError, 0) :=
  c4_unparseable_timestamp_value_error "2015-07-01" (by decide) rfl rfl
    ⟨[], [⟨some "2015-01-01T00:00:00Z", some "2015-07-01", []⟩], []⟩
    "fp" none ⟨2015, 7, 1, 0, 0, 5, 0⟩ (fun _ _ => true) [] [] rfl

end PySaml
